import Mathlib

/-!
Verification development for the geodata retrieval pipeline
(`src/geodata_retrieval.py` of the `geodata_tool` repository).

The Python module is shallowly embedded: the network, the XML parser
(`xml.etree.ElementTree`), the point reprojection (`pyproj`) and the row
reprojection (`GeoDataFrame.to_crs`) are oracles supplied as explicit
function parameters, and every observable effect of `fetch_geodata`
(the returned result dictionary, the WFS `GetFeature` requests issued, the
files written, the `transform_bbox` calls made and the working-CRS choice
per dataset) is recorded in an explicit state record.  Coordinates are
modelled as rationals.
-/

/-- Python `str.startswith`, structurally over the character list. -/
def listIsPref : List Char → List Char → Bool
  | [], _ => true
  | _ :: _, [] => false
  | a :: as, b :: bs => a == b && listIsPref as bs

/-- Python `s.startswith(pre)`. -/
def pyStartsWith (s pre : String) : Bool :=
  listIsPref pre.data s.data

/-- Python `s.endswith(suf)`. -/
def pyEndsWith (s suf : String) : Bool :=
  listIsPref suf.data.reverse s.data.reverse

/-- Python `s.strip()`: drop leading and trailing whitespace. -/
def pyStrip (s : String) : String :=
  ⟨((s.data.dropWhile Char.isWhitespace).reverse.dropWhile
      Char.isWhitespace).reverse⟩

/-- Python `s.upper()` on ASCII service-type strings. -/
def pyUpper (s : String) : String :=
  ⟨s.data.map Char.toUpper⟩

/-- Python `s.replace(c, d)` for single-character pattern and
replacement. -/
def pyReplaceChar (s : String) (c d : Char) : String :=
  ⟨s.data.map (fun x => if x == c then d else x)⟩

/-- An axis-aligned bounding box `(minx, miny, maxx, maxy)`. -/
structure Rect where
  minx : ℚ
  miny : ℚ
  maxx : ℚ
  maxy : ℚ
deriving DecidableEq, Repr

/-- A parsed XML element: tag (namespaced tags appear as `{uri}local`, as in
`xml.etree.ElementTree`), optional text content (`None` for an element with
no text node), and child elements. -/
inductive Xml where
  | node (tag : String) (text : Option String) (children : List Xml)

/-- The element's tag. -/
def Xml.tag : Xml → String
  | Xml.node t _ _ => t

/-- The element's text content (`elem.text`), `none` when absent. -/
def Xml.text : Xml → Option String
  | Xml.node _ tx _ => tx

/-- The element's direct children. -/
def Xml.children : Xml → List Xml
  | Xml.node _ _ cs => cs

mutual
/-- All strict descendants of an element, in document order
(the elements matched by an ElementTree `.//` search below this element). -/
def xmlDescend : Xml → List Xml
  | Xml.node _ _ cs => xmlDescendList cs
/-- All elements of a forest together with their strict descendants. -/
def xmlDescendList : List Xml → List Xml
  | [] => []
  | c :: cs => c :: (xmlDescend c ++ xmlDescendList cs)
end

/-- `root.findall(".//t1/t2")`: every child tagged `t2` of every strict
descendant of `root` tagged `t1`. -/
def findall2 (root : Xml) (t1 t2 : String) : List Xml :=
  ((xmlDescend root).filter (fun e => e.tag == t1)).flatMap
    (fun e => e.children.filter (fun c => c.tag == t2))

/-- Outcome of an HTTP GET as seen by the Python code: either a
`requests` exception (timeout, connection failure) or a response carrying a
status code and a body. -/
inductive HttpResp where
  | exc
  | resp (status : Nat) (body : String)

/-- `get_capabilities_layers` (lines 23–81).  `parse` embeds
`ET.fromstring` (`none` = `ParseError`), `http` is the outcome of the
`GetCapabilities` GET.  `requests.raise_for_status` raises (an exception the
code catches, returning `[]`) exactly for 4xx/5xx statuses.  Elements with
no text contribute `none` entries (Python appends `layer.text`, possibly
`None`). -/
def get_capabilities_layers (parse : String → Option Xml) (http : HttpResp)
    (service_type : String) : List (Option String) :=
  match http with
  | HttpResp.exc => []
  | HttpResp.resp status body =>
    if 400 ≤ status ∧ status < 600 then []
    else if ¬ (pyStartsWith (pyStrip body) "<") then []
    else
      match parse body with
      | none => []
      | some root =>
        if pyUpper service_type == "WMS" then
          let layers := (findall2 root "Layer" "Name").map Xml.text
          if layers.isEmpty then
            (findall2 root "\x7bhttp://www.opengis.net/wms/1.3.0\x7dLayer"
              "\x7bhttp://www.opengis.net/wms/1.3.0\x7dName").map Xml.text
          else layers
        else if pyUpper service_type == "WFS" then
          let layers := (findall2 root "FeatureType" "Name").map Xml.text
          if layers.isEmpty then
            (findall2 root "\x7bhttp://www.opengis.net/wfs/2.0\x7dFeatureType"
              "\x7bhttp://www.opengis.net/wfs/2.0\x7dName").map Xml.text
          else layers
        else []

/-- Tag filter of `get_supported_crs` (line 115). -/
def crsTagMatch (t : String) : Bool :=
  pyEndsWith t "DefaultCRS" || pyEndsWith t "OtherCRS"

/-- Python `set.add`: a `set` of strings is modelled as a duplicate-free
list; adding an element already present leaves the set unchanged. -/
def setAdd (l : List String) (s : String) : List String :=
  if s ∈ l then l else l ++ [s]

/-- The collection loop of `get_supported_crs` (lines 114–116).  For a
matching element, Python evaluates `elem.text.strip()`; when `elem.text` is
`None` this raises `AttributeError`, which the surrounding
`except Exception` turns into an empty set — modelled by `none`. -/
def collectCrs : List Xml → List String → Option (List String)
  | [], acc => some acc
  | e :: es, acc =>
    if crsTagMatch e.tag then
      match e.text with
      | none => none
      | some s => collectCrs es (setAdd acc (pyStrip s))
    else collectCrs es acc

/-- `get_supported_crs` (lines 84–121): non-200 status, network exception,
parse failure or any exception inside the element walk all yield the empty
set (modelled as `[]`). -/
def get_supported_crs (parse : String → Option Xml) (http : HttpResp) :
    List String :=
  match http with
  | HttpResp.exc => []
  | HttpResp.resp status body =>
    if status ≠ 200 then []
    else
      match parse body with
      | none => []
      | some root =>
        match collectCrs (root :: xmlDescend root) [] with
        | none => []
        | some s => s

/-- Binary minimum on ℚ via the executable comparison `Rat.blt`. -/
def qmin (a b : ℚ) : ℚ := if Rat.blt b a then b else a

/-- Binary maximum on ℚ via the executable comparison `Rat.blt`. -/
def qmax (a b : ℚ) : ℚ := if Rat.blt a b then b else a

/-- `transform_bbox` (lines 12–21) for a given point projection (the
`pyproj` transformation between the two CRSs).  `shapely.geometry.box`
builds the rectangle's four corners, `shapely.ops.transform` projects each
of them, and `.bounds` re-derives the componentwise min/max over all
projected corners. -/
def transform_bbox (project : ℚ × ℚ → ℚ × ℚ) (b : Rect) : Rect :=
  let p1 := project (b.maxx, b.miny)
  let p2 := project (b.maxx, b.maxy)
  let p3 := project (b.minx, b.maxy)
  let p4 := project (b.minx, b.miny)
  { minx := qmin (qmin p1.1 p2.1) (qmin p3.1 p4.1)
    miny := qmin (qmin p1.2 p2.2) (qmin p3.2 p4.2)
    maxx := qmax (qmax p1.1 p2.1) (qmax p3.1 p4.1)
    maxy := qmax (qmax p1.2 p2.2) (qmax p3.2 p4.2) }

/-- `transform_bbox` with a fallible CRS lookup: `pyproj.Proj(init=...)`
raises for an invalid or unsupported EPSG code (`mk = none`), and
`transform_bbox` has no handler, so the failure propagates. -/
def transform_bbox_checked (mk : Option (ℚ × ℚ → ℚ × ℚ)) (b : Rect) :
    Option Rect :=
  match mk with
  | none => none
  | some project => some (transform_bbox project b)

/-- A dataset record: `{name, url, type}` (line 136). -/
structure Dataset where
  name : String
  url : String
  type : String
deriving DecidableEq, Repr

/-- A row of a GeoDataFrame, abstracted to what the pipeline observes: an
identifier, whether its geometry is non-null (`geometry.notnull()`), and
whether it is valid (`is_valid`). -/
structure Feature where
  fid : Nat
  notnull : Bool
  valid : Bool
deriving DecidableEq, Repr

/-- A GeoDataFrame as parsed from one WFS page: its CRS and its rows. -/
structure Gdf where
  crs : String
  features : List Feature
deriving DecidableEq, Repr

/-- A WFS `GetFeature` response: HTTP status, and (when the status is 200)
the GeoDataFrame `gpd.read_file` yields from the body.  The gzip branch of
lines 187–190 only decodes the transport bytes and is absorbed into `gdf`. -/
structure HttpPage where
  status : Nat
  gdf : Gdf
deriving DecidableEq, Repr

/-- The query parameters of one `GetFeature` request (lines 171–181):
`SERVICE=WFS`, `REQUEST=GetFeature` and `VERSION=2.0.0` are fixed; the
varying parts are recorded structurally.  `bboxCrs` is the CRS tag appended
inside the `BBOX` parameter; `count` is always 1000 in the source. -/
structure WfsReq where
  url : String
  typenames : String
  srsname : String
  bminx : ℚ
  bminy : ℚ
  bmaxx : ℚ
  bmaxy : ℚ
  bboxCrs : String
  count : Nat
  startIndex : Nat
deriving DecidableEq, Repr

/-- The result dictionary's values (docstring lines 140–143). `geojson`
models `full_gdf.to_json()` by the cleaned row list it serializes. -/
inductive LayerResult where
  | wfs (geojson : List Feature) (filename : String)
  | wms (url : String)
deriving DecidableEq, Repr

/-- Python `dict` assignment `d[k] = v` on an insertion-ordered
association list: overwrite in place if the key exists, else append. -/
def dictInsert : List (String × LayerResult) → String → LayerResult →
    List (String × LayerResult)
  | [], k, v => [(k, v)]
  | (k0, v0) :: rest, k, v =>
    if k0 = k then (k0, v) :: rest else (k0, v0) :: dictInsert rest k v

/-- The environment of a `fetch_geodata` run: the external world the Python
code interacts with.  `fuel` bounds the unwinding of the unbounded
`while True` pagination loop (the source has no such bound; every theorem
about the loop assumes the fuel exceeds the number of pages the server
serves, so the bound is never hit). -/
structure Env where
  parse : String → Option Xml
  capResp : String → HttpResp
  page : WfsReq → HttpPage
  proj : ℚ × ℚ → ℚ × ℚ
  reproj : Feature → Feature
  fmt : ℚ → String
  fuel : Nat

/-- The mutable state of a `fetch_geodata` run: `cur` models the working
variables `minx, miny, maxx, maxy` (unpacked from the caller's bbox at line
149 and reassigned at line 162), `results` the returned dictionary, and the
remaining fields log the observable effects: `GetFeature` requests issued,
files written (filename and cleaned rows), `transform_bbox` calls (the bbox
argument passed), the working CRS chosen per selected dataset, and the
merged pre-cleaning feature collection per persisted layer. -/
structure St where
  cur : Rect
  results : List (String × LayerResult)
  reqs : List WfsReq
  files : List (String × List Feature)
  tbCalls : List Rect
  chosen : List (String × Nat)
  mergedLog : List (String × List Feature)

/-- The fixed parts of one `GetFeature` request at a given start index. -/
def mkWfsReq (url layer srs : String) (cur : Rect) (si : Nat) : WfsReq :=
  { url := url, typenames := layer, srsname := srs,
    bminx := cur.minx, bminy := cur.miny, bmaxx := cur.maxx,
    bmaxy := cur.maxy, bboxCrs := srs, count := 1000, startIndex := si }

/-- The pagination loop (lines 170–205): request the page at `si`; on
status 200 parse it, keep it, stop if it is short (fewer than 1000 rows),
otherwise advance by 1000; on any other status stop, keeping prior pages.
Returns the accumulated pages and the requests issued. -/
def wfsLoop (page : WfsReq → HttpPage) (mk : Nat → WfsReq) :
    Nat → Nat → List Gdf → List WfsReq → List Gdf × List WfsReq
  | 0, _, acc, reqs => (acc, reqs)
  | fuel + 1, si, acc, reqs =>
    let req := mk si
    let r := page req
    if r.status == 200 then
      if r.gdf.features.length < 1000 then (acc ++ [r.gdf], reqs ++ [req])
      else wfsLoop page mk fuel (si + 1000) (acc ++ [r.gdf]) (reqs ++ [req])
    else (acc, reqs ++ [req])

/-- The post-merge cleaning of lines 210–214: reproject row-wise to
EPSG:4326 when the merged CRS differs, then drop null geometries, then drop
invalid geometries. -/
def cleanFeatures (reproj : Feature → Feature) (crs : String)
    (fs : List Feature) : List Feature :=
  let fs' := if crs ≠ "EPSG:4326" then fs.map reproj else fs
  (fs'.filter (fun f => f.notnull)).filter (fun f => f.valid)

/-- `pd.concat(all_features, ignore_index=True)` wrapped back into a
GeoDataFrame: rows concatenated, CRS taken from the first frame.  The `[]`
case is unreachable in the source (guarded by `if all_features:`). -/
def gdfConcat : List Gdf → Gdf
  | [] => ⟨"", []⟩
  | g :: gs => ⟨g.crs, (g :: gs).flatMap Gdf.features⟩

/-- The body of the per-layer loop (lines 164–237).  The WFS branch runs the
pagination loop, and — only when at least one page was kept
(`if all_features:`) — merges the pages, cleans, persists to the derived
filename and registers the layer.  The WMS branch builds the `GetMap` URL
from the CURRENT working extent `st.cur` (the possibly transformed
`minx..maxy` variables) and registers it; no request is issued. -/
def processLayer (env : Env) (ds : Dataset) (preferred_crs : String)
    (layer : String) (st : St) : St :=
  if ds.type == "WFS" then
    let lr := wfsLoop env.page (mkWfsReq ds.url layer preferred_crs st.cur)
      env.fuel 0 [] []
    let st1 := { st with reqs := st.reqs ++ lr.2 }
    if lr.1.isEmpty then st1
    else
      let full_gdf := gdfConcat lr.1
      let full := cleanFeatures env.reproj full_gdf.crs full_gdf.features
      let filename := (pyReplaceChar layer ':' '_') ++ "_4326.geojson"
      { st1 with
        mergedLog := st1.mergedLog ++ [(layer, full_gdf.features)]
        files := st1.files ++ [(filename, full)]
        results := dictInsert st1.results layer (LayerResult.wfs full filename) }
  else if ds.type == "WMS" then
    let url := ds.url ++ "?service=WMS&request=GetMap&layers=" ++ layer
      ++ "&bbox=" ++ env.fmt st.cur.minx ++ "," ++ env.fmt st.cur.miny
      ++ "," ++ env.fmt st.cur.maxx ++ "," ++ env.fmt st.cur.maxy
      ++ "&width=500&height=500&srs=EPSG:4326&format=image/png"
    { st with results := dictInsert st.results layer (LayerResult.wms url) }
  else st

/-- The EPSG:28992 URN tested at line 158. -/
def urn28992 : String := "urn:ogc:def:crs:EPSG::28992"

/-- The URN form `urn:ogc:def:crs:EPSG::<code>` (line 159). -/
def epsgUrn (n : Nat) : String :=
  "urn:ogc:def:crs:EPSG::" ++ toString n

/-- The CRS negotiation of lines 155–158: `to_epsg` is 28992 exactly when
the supported-CRS set of the dataset's capabilities contains the EPSG:28992
URN, else 4326. -/
def negotiated_to_epsg (env : Env) (url : String) : Nat :=
  if urn28992 ∈ get_supported_crs env.parse (env.capResp url) then 28992
  else 4326

/-- The working extent for a dataset entered with working variables equal to
the caller's bbox: transformed when the negotiated CRS is not 4326 (line
162 transforms the caller's `bbox`), unchanged otherwise. -/
def negotiatedBbox (env : Env) (url : String) (bbox : Rect) : Rect :=
  if negotiated_to_epsg env url ≠ 4326 then transform_bbox env.proj bbox
  else bbox

/-- The body of the per-dataset loop (lines 152–237).  For a selected
dataset: look up its layers, negotiate the CRS (`from_epsg = 4326`,
`to_epsg` per `negotiated_to_epsg`), and when `to_epsg ≠ from_epsg`
reassign the working variables `minx..maxy` (`st.cur`) to the transform of
the CALLER's bbox (line 162 transforms `bbox`, not the current variables).
Note the reassigned `st.cur` persists into later datasets.  The `chosen`
log records the working CRS selected for the dataset. -/
def processDataset (env : Env) (selected_datasets : List String)
    (dataset_layers : String → List String) (bbox : Rect) (ds : Dataset)
    (st : St) : St :=
  if ds.name ∈ selected_datasets then
    let to_epsg : Nat := negotiated_to_epsg env ds.url
    let preferred_crs := epsgUrn to_epsg
    let st1 :=
      if to_epsg ≠ 4326 then
        { st with cur := transform_bbox env.proj bbox
                  tbCalls := st.tbCalls ++ [bbox] }
      else st
    let st2 := { st1 with chosen := st1.chosen ++ [(ds.name, to_epsg)] }
    (dataset_layers ds.name).foldl
      (fun s l => processLayer env ds preferred_crs l s) st2
  else st

/-- The initial state: line 149 unpacks the caller's bbox into the working
variables; everything else starts empty. -/
def initSt (bbox : Rect) : St :=
  { cur := bbox, results := [], reqs := [], files := [], tbCalls := [],
    chosen := [], mergedLog := [] }

/-- `fetch_geodata` (lines 124–239): iterate the dataset list, threading the
working state (including the working bbox variables) through every
iteration, and return the final state.  The Python function returns
`results`; the other fields record its effects. -/
def fetch_geodata (env : Env) (selected_datasets : List String)
    (dataset_layers : String → List String) (datasets : List Dataset)
    (bbox : Rect) : St :=
  datasets.foldl
    (fun st ds => processDataset env selected_datasets dataset_layers bbox ds st)
    (initSt bbox)

lemma qmin_le_left (a b : ℚ) : qmin a b ≤ a := by
  unfold qmin
  split
  · next h =>
    have hba : b < a := by change Rat.blt b a = true; exact h
    exact le_of_lt hba
  · exact le_refl a

lemma qmin_le_right (a b : ℚ) : qmin a b ≤ b := by
  unfold qmin
  split
  · exact le_refl b
  · next h =>
    change Rat.blt b a = false
    exact Bool.of_not_eq_true h

lemma le_qmax_left (a b : ℚ) : a ≤ qmax a b := by
  unfold qmax
  split
  · next h =>
    have hab : a < b := by change Rat.blt a b = true; exact h
    exact le_of_lt hab
  · exact le_refl a

lemma le_qmax_right (a b : ℚ) : b ≤ qmax a b := by
  unfold qmax
  split
  · exact le_refl b
  · next h =>
    change Rat.blt a b = false
    exact Bool.of_not_eq_true h

lemma qmin_eq_or (a b : ℚ) : qmin a b = a ∨ qmin a b = b := by
  unfold qmin
  split
  · exact Or.inr rfl
  · exact Or.inl rfl

lemma qmax_eq_or (a b : ℚ) : qmax a b = a ∨ qmax a b = b := by
  unfold qmax
  split
  · exact Or.inr rfl
  · exact Or.inl rfl

/-- The four corner points of the rectangle built by
`shapely.geometry.box(minx, miny, maxx, maxy)`, in ring order. -/
def rectCorners (b : Rect) : List (ℚ × ℚ) :=
  [(b.maxx, b.miny), (b.maxx, b.maxy), (b.minx, b.maxy), (b.minx, b.miny)]

lemma qmin4_le (x1 x2 x3 x4 : ℚ) :
    qmin (qmin x1 x2) (qmin x3 x4) ≤ x1 ∧ qmin (qmin x1 x2) (qmin x3 x4) ≤ x2 ∧
    qmin (qmin x1 x2) (qmin x3 x4) ≤ x3 ∧ qmin (qmin x1 x2) (qmin x3 x4) ≤ x4 :=
  ⟨le_trans (qmin_le_left _ _) (qmin_le_left _ _),
   le_trans (qmin_le_left _ _) (qmin_le_right _ _),
   le_trans (qmin_le_right _ _) (qmin_le_left _ _),
   le_trans (qmin_le_right _ _) (qmin_le_right _ _)⟩

lemma le_qmax4 (x1 x2 x3 x4 : ℚ) :
    x1 ≤ qmax (qmax x1 x2) (qmax x3 x4) ∧ x2 ≤ qmax (qmax x1 x2) (qmax x3 x4) ∧
    x3 ≤ qmax (qmax x1 x2) (qmax x3 x4) ∧ x4 ≤ qmax (qmax x1 x2) (qmax x3 x4) :=
  ⟨le_trans (le_qmax_left _ _) (le_qmax_left _ _),
   le_trans (le_qmax_right _ _) (le_qmax_left _ _),
   le_trans (le_qmax_left _ _) (le_qmax_right _ _),
   le_trans (le_qmax_right _ _) (le_qmax_right _ _)⟩

lemma qmin4_eq (x1 x2 x3 x4 : ℚ) :
    qmin (qmin x1 x2) (qmin x3 x4) = x1 ∨ qmin (qmin x1 x2) (qmin x3 x4) = x2 ∨
    qmin (qmin x1 x2) (qmin x3 x4) = x3 ∨ qmin (qmin x1 x2) (qmin x3 x4) = x4 := by
  rcases qmin_eq_or (qmin x1 x2) (qmin x3 x4) with h | h
  · rcases qmin_eq_or x1 x2 with h2 | h2
    · exact Or.inl (h.trans h2)
    · exact Or.inr (Or.inl (h.trans h2))
  · rcases qmin_eq_or x3 x4 with h2 | h2
    · exact Or.inr (Or.inr (Or.inl (h.trans h2)))
    · exact Or.inr (Or.inr (Or.inr (h.trans h2)))

lemma qmax4_eq (x1 x2 x3 x4 : ℚ) :
    qmax (qmax x1 x2) (qmax x3 x4) = x1 ∨ qmax (qmax x1 x2) (qmax x3 x4) = x2 ∨
    qmax (qmax x1 x2) (qmax x3 x4) = x3 ∨ qmax (qmax x1 x2) (qmax x3 x4) = x4 := by
  rcases qmax_eq_or (qmax x1 x2) (qmax x3 x4) with h | h
  · rcases qmax_eq_or x1 x2 with h2 | h2
    · exact Or.inl (h.trans h2)
    · exact Or.inr (Or.inl (h.trans h2))
  · rcases qmax_eq_or x3 x4 with h2 | h2
    · exact Or.inr (Or.inr (Or.inl (h.trans h2)))
    · exact Or.inr (Or.inr (Or.inr (h.trans h2)))

/-- C7: for every bounding box with `minx ≤ maxx` and `miny ≤ maxy` and
every point projection, `transform_bbox` returns the componentwise minimum
and maximum over all four projected corner points of the input rectangle:
the result is a valid rectangle (`minx ≤ maxx`, `miny ≤ maxy`) even when
the reprojection rotates or skews, every projected corner lies within the
result, and each of the four result bounds is attained by one of the four
corners (not merely the two diagonal ones); a failed CRS lookup propagates
to the caller (`transform_bbox_checked none` is `none`). -/
theorem transform_bbox_bounds_all_corners (project : ℚ × ℚ → ℚ × ℚ)
    (b : Rect) (hx : b.minx ≤ b.maxx) (hy : b.miny ≤ b.maxy) :
    ((transform_bbox project b).minx ≤ (transform_bbox project b).maxx ∧
      (transform_bbox project b).miny ≤ (transform_bbox project b).maxy) ∧
    (∀ p ∈ rectCorners b,
      (transform_bbox project b).minx ≤ (project p).1 ∧
      (project p).1 ≤ (transform_bbox project b).maxx ∧
      (transform_bbox project b).miny ≤ (project p).2 ∧
      (project p).2 ≤ (transform_bbox project b).maxy) ∧
    ((∃ p ∈ rectCorners b, (project p).1 = (transform_bbox project b).minx) ∧
     (∃ p ∈ rectCorners b, (project p).1 = (transform_bbox project b).maxx) ∧
     (∃ p ∈ rectCorners b, (project p).2 = (transform_bbox project b).miny) ∧
     (∃ p ∈ rectCorners b, (project p).2 = (transform_bbox project b).maxy)) ∧
    transform_bbox_checked none b = none := by
  refine ⟨⟨?_, ?_⟩, ?_, ⟨?_, ?_, ?_, ?_⟩, rfl⟩
  · exact le_trans (qmin4_le _ _ _ _).1 (le_qmax4 _ _ _ _).1
  · exact le_trans (qmin4_le _ _ _ _).1 (le_qmax4 _ _ _ _).1
  · intro p hp
    simp only [rectCorners, List.mem_cons, List.not_mem_nil, or_false] at hp
    rcases hp with rfl | rfl | rfl | rfl
    · exact ⟨(qmin4_le _ _ _ _).1, (le_qmax4 _ _ _ _).1,
        (qmin4_le _ _ _ _).1, (le_qmax4 _ _ _ _).1⟩
    · exact ⟨(qmin4_le _ _ _ _).2.1, (le_qmax4 _ _ _ _).2.1,
        (qmin4_le _ _ _ _).2.1, (le_qmax4 _ _ _ _).2.1⟩
    · exact ⟨(qmin4_le _ _ _ _).2.2.1, (le_qmax4 _ _ _ _).2.2.1,
        (qmin4_le _ _ _ _).2.2.1, (le_qmax4 _ _ _ _).2.2.1⟩
    · exact ⟨(qmin4_le _ _ _ _).2.2.2, (le_qmax4 _ _ _ _).2.2.2,
        (qmin4_le _ _ _ _).2.2.2, (le_qmax4 _ _ _ _).2.2.2⟩
  · rcases qmin4_eq (project (b.maxx, b.miny)).1 (project (b.maxx, b.maxy)).1
      (project (b.minx, b.maxy)).1 (project (b.minx, b.miny)).1 with h | h | h | h
    · exact ⟨(b.maxx, b.miny), by simp [rectCorners], h.symm⟩
    · exact ⟨(b.maxx, b.maxy), by simp [rectCorners], h.symm⟩
    · exact ⟨(b.minx, b.maxy), by simp [rectCorners], h.symm⟩
    · exact ⟨(b.minx, b.miny), by simp [rectCorners], h.symm⟩
  · rcases qmax4_eq (project (b.maxx, b.miny)).1 (project (b.maxx, b.maxy)).1
      (project (b.minx, b.maxy)).1 (project (b.minx, b.miny)).1 with h | h | h | h
    · exact ⟨(b.maxx, b.miny), by simp [rectCorners], h.symm⟩
    · exact ⟨(b.maxx, b.maxy), by simp [rectCorners], h.symm⟩
    · exact ⟨(b.minx, b.maxy), by simp [rectCorners], h.symm⟩
    · exact ⟨(b.minx, b.miny), by simp [rectCorners], h.symm⟩
  · rcases qmin4_eq (project (b.maxx, b.miny)).2 (project (b.maxx, b.maxy)).2
      (project (b.minx, b.maxy)).2 (project (b.minx, b.miny)).2 with h | h | h | h
    · exact ⟨(b.maxx, b.miny), by simp [rectCorners], h.symm⟩
    · exact ⟨(b.maxx, b.maxy), by simp [rectCorners], h.symm⟩
    · exact ⟨(b.minx, b.maxy), by simp [rectCorners], h.symm⟩
    · exact ⟨(b.minx, b.miny), by simp [rectCorners], h.symm⟩
  · rcases qmax4_eq (project (b.maxx, b.miny)).2 (project (b.maxx, b.maxy)).2
      (project (b.minx, b.maxy)).2 (project (b.minx, b.miny)).2 with h | h | h | h
    · exact ⟨(b.maxx, b.miny), by simp [rectCorners], h.symm⟩
    · exact ⟨(b.maxx, b.maxy), by simp [rectCorners], h.symm⟩
    · exact ⟨(b.minx, b.maxy), by simp [rectCorners], h.symm⟩
    · exact ⟨(b.minx, b.miny), by simp [rectCorners], h.symm⟩

/-- Witness for `transform_bbox_bounds_all_corners`: the axis-swapping
projection applied to the unit square. -/
theorem transform_bbox_bounds_all_corners_witness :
    ((⟨0, 0, 1, 1⟩ : Rect).minx ≤ (⟨0, 0, 1, 1⟩ : Rect).maxx) ∧
    (transform_bbox (fun p => (p.2, p.1)) ⟨0, 0, 1, 1⟩).minx ≤
      (transform_bbox (fun p => (p.2, p.1)) ⟨0, 0, 1, 1⟩).maxx :=
  ⟨by decide,
   (transform_bbox_bounds_all_corners (fun p => (p.2, p.1)) ⟨0, 0, 1, 1⟩
      (by decide) (by decide)).1.1⟩

/-- C6 (amended): the capability operations fail closed and never raise —
`get_capabilities_layers` returns `[]` on a network exception (timeout or
connection failure), on an HTTP error status (4xx/5xx, the statuses
`raise_for_status` raises for), on a body that does not begin with `<`, and
on an XML parse failure; `get_supported_crs` returns the empty set on a
network exception, on ANY non-200 status, and on a parse failure.  (For
`get_capabilities_layers` a non-200, non-error status such as 203 is NOT
treated as failure: the body is still parsed — see the counterexample.) -/
theorem capabilities_fail_closed (parse : String → Option Xml)
    (sty : String) :
    get_capabilities_layers parse HttpResp.exc sty = [] ∧
    (∀ s b, 400 ≤ s → s < 600 →
      get_capabilities_layers parse (HttpResp.resp s b) sty = []) ∧
    (∀ s b, pyStartsWith (pyStrip b) "<" = false →
      get_capabilities_layers parse (HttpResp.resp s b) sty = []) ∧
    (∀ s b, parse b = none →
      get_capabilities_layers parse (HttpResp.resp s b) sty = []) ∧
    get_supported_crs parse HttpResp.exc = [] ∧
    (∀ s b, s ≠ 200 → get_supported_crs parse (HttpResp.resp s b) = []) ∧
    (∀ s b, parse b = none →
      get_supported_crs parse (HttpResp.resp s b) = []) := by
  refine ⟨rfl, ?_, ?_, ?_, rfl, ?_, ?_⟩
  · intro s b h1 h2
    simp [get_capabilities_layers, h1, h2]
  · intro s b hb
    simp [get_capabilities_layers, hb]
  · intro s b hb
    simp [get_capabilities_layers, hb]
  · intro s b hs
    simp [get_supported_crs, hs]
  · intro s b hb
    simp [get_supported_crs, hb]

/-- Witness for `capabilities_fail_closed`: a 404 response and a non-200
capability response observed to yield empty results. -/
theorem capabilities_fail_closed_witness :
    (400 ≤ 404 ∧
      get_capabilities_layers (fun _ => none) (HttpResp.resp 404 "x") "WMS"
        = []) ∧
    (503 ≠ 200 ∧
      get_supported_crs (fun _ => none) (HttpResp.resp 503 "x") = []) :=
  ⟨⟨by decide,
    (capabilities_fail_closed (fun _ => none) "WMS").2.1 404 "x" (by decide)
      (by decide)⟩,
   ⟨by decide,
    (capabilities_fail_closed (fun _ => none) "WMS").2.2.2.2.2.1 503 "x"
      (by decide)⟩⟩

/-- A parsed WMS capabilities document offering the layer `water`. -/
def xmlWmsCaps : Xml :=
  Xml.node "WMS_Capabilities" none
    [Xml.node "Capability" none
      [Xml.node "Layer" none [Xml.node "Name" (some "water") []]]]

/-- Counterexample to C6 as stated: on a non-200 status that is not an HTTP
error (here 203), `get_capabilities_layers` does NOT return the empty list —
`raise_for_status` only raises for 4xx/5xx, so the body is parsed and the
layer list is returned. -/
theorem capabilities_status_203_not_empty :
    get_capabilities_layers
        (fun s => if s == "<caps>" then some xmlWmsCaps else none)
        (HttpResp.resp 203 "<caps>") "WMS" = [some "water"] ∧
    203 ≠ 200 ∧ ([some "water"] : List (Option String)) ≠ [] := by
  decide

lemma collectCrs_none_of_mem (l : List Xml) :
    ∀ acc, (∃ e ∈ l, crsTagMatch e.tag = true ∧ e.text = none) →
      collectCrs l acc = none := by
  induction l with
  | nil =>
    intro acc h
    rcases h with ⟨e, he, _⟩
    cases he
  | cons e es ih =>
    intro acc h
    rcases h with ⟨x, hx, hm, ht⟩
    rcases List.mem_cons.mp hx with rfl | hx'
    · simp [collectCrs, hm, ht]
    · by_cases hc : crsTagMatch e.tag = true
      · cases htext : e.text with
        | none => simp [collectCrs, hc, htext]
        | some s =>
          simp only [collectCrs, hc, if_true, htext]
          exact ih _ ⟨x, hx', hm, ht⟩
      · simp only [collectCrs, hc, if_false]
        exact ih _ ⟨x, hx', hm, ht⟩

/-- C10: if the parsed WFS capabilities document contains at least one
element whose tag ends in `DefaultCRS` or `OtherCRS` but which has no text
content, `get_supported_crs` returns the empty set — every CRS identifier
collected from the other, well-formed elements of the same document is
discarded (the `AttributeError` from `None.strip()` is swallowed by the
catch-all handler). -/
theorem get_supported_crs_empty_on_textless_elem
    (parse : String → Option Xml) (body : String) (root : Xml)
    (hp : parse body = some root)
    (he : ∃ e ∈ root :: xmlDescend root, crsTagMatch e.tag = true ∧
      e.text = none) :
    get_supported_crs parse (HttpResp.resp 200 body) = [] := by
  simp [get_supported_crs, hp, collectCrs_none_of_mem _ _ he]

/-- A capabilities document with one well-formed `DefaultCRS` element and
one empty (text-less) `OtherCRS` element. -/
def xmlHalfEmptyCaps : Xml :=
  Xml.node "FeatureTypeList" none
    [Xml.node "DefaultCRS" (some "urn:ogc:def:crs:EPSG::28992") [],
     Xml.node "OtherCRS" none []]

/-- Witness for `get_supported_crs_empty_on_textless_elem`: even though the
document advertises the EPSG:28992 URN in a well-formed element, the empty
`OtherCRS` element makes the whole result empty. -/
theorem get_supported_crs_empty_on_textless_elem_witness :
    (fun _ : String => some xmlHalfEmptyCaps) "<c>" = some xmlHalfEmptyCaps ∧
    get_supported_crs (fun _ => some xmlHalfEmptyCaps)
      (HttpResp.resp 200 "<c>") = [] :=
  ⟨rfl,
   get_supported_crs_empty_on_textless_elem (fun _ => some xmlHalfEmptyCaps)
     "<c>" xmlHalfEmptyCaps rfl
     ⟨Xml.node "OtherCRS" none [],
      by simp [xmlHalfEmptyCaps, xmlDescend, xmlDescendList], by decide,
      rfl⟩⟩

lemma wfsLoop_ok_pages (page : WfsReq → HttpPage) (mk : Nat → WfsReq) :
    ∀ (n : Nat) (G : Nat → Gdf) (s fuel : Nat) (acc : List Gdf)
      (reqs : List WfsReq),
      (∀ i, i < n → page (mk (s + 1000 * i)) = ⟨200, G i⟩ ∧
        (G i).features.length = 1000) →
      page (mk (s + 1000 * n)) = ⟨200, G n⟩ →
      (G n).features.length < 1000 →
      n + 1 ≤ fuel →
      wfsLoop page mk fuel s acc reqs =
        (acc ++ (List.range (n + 1)).map G,
         reqs ++ (List.range (n + 1)).map (fun i => mk (s + 1000 * i))) := by
  intro n
  induction n with
  | zero =>
    intro G s fuel acc reqs _ hlast hk hfuel
    match fuel, hfuel with
    | f + 1, _ =>
      simp only [Nat.mul_zero, Nat.add_zero] at hlast
      simp [wfsLoop, hlast, hk, show List.range 1 = [0] from rfl]
  | succ n ih =>
    intro G s fuel acc reqs hfull hlast hk hfuel
    match fuel, hfuel with
    | f + 1, hfuel =>
      have h0 := hfull 0 (Nat.succ_pos n)
      simp only [Nat.mul_zero, Nat.add_zero] at h0
      have hnotshort : ¬ ((G 0).features.length < 1000) := by
        rw [h0.2]
        omega
      have hrec := ih (fun i => G (i + 1)) (s + 1000) f (acc ++ [G 0])
        (reqs ++ [mk s]) ?_ ?_ ?_ ?_
      · have hGs : (acc ++ [G 0]) ++
            (List.range (n + 1)).map (fun i => G (i + 1))
            = acc ++ (List.range (n + 1 + 1)).map G := by
          rw [List.append_assoc]
          congr 1
          conv_rhs => rw [List.range_succ_eq_map]
          simp [List.map_map, Function.comp_def]
        have hRs : (reqs ++ [mk s]) ++
            (List.range (n + 1)).map (fun i => mk (s + 1000 + 1000 * i))
            = reqs ++ (List.range (n + 1 + 1)).map
                (fun i => mk (s + 1000 * i)) := by
          rw [List.append_assoc]
          congr 1
          conv_rhs => rw [List.range_succ_eq_map]
          simp only [List.map_cons, Nat.mul_zero, Nat.add_zero,
            List.map_map, List.singleton_append]
          congr 1
          apply List.map_congr_left
          intro i _
          simp only [Function.comp_apply, Nat.succ_eq_add_one]
          congr 1
          ring
        simp [wfsLoop, h0.1, hnotshort, hrec, hGs, hRs]
      · intro i hi
        have hthis := hfull (i + 1) (by omega)
        have harith : s + 1000 * (i + 1) = s + 1000 + 1000 * i := by ring
        rw [harith] at hthis
        exact hthis
      · have harith : s + 1000 * (n + 1) = s + 1000 + 1000 * n := by ring
        rw [harith] at hlast
        exact hlast
      · exact hk
      · omega

lemma wfsLoop_ok_then_err (page : WfsReq → HttpPage) (mk : Nat → WfsReq) :
    ∀ (n : Nat) (G : Nat → Gdf) (s fuel : Nat) (acc : List Gdf)
      (reqs : List WfsReq),
      (∀ i, i < n → page (mk (s + 1000 * i)) = ⟨200, G i⟩ ∧
        (G i).features.length = 1000) →
      (page (mk (s + 1000 * n))).status ≠ 200 →
      n + 1 ≤ fuel →
      wfsLoop page mk fuel s acc reqs =
        (acc ++ (List.range n).map G,
         reqs ++ (List.range (n + 1)).map (fun i => mk (s + 1000 * i))) := by
  intro n
  induction n with
  | zero =>
    intro G s fuel acc reqs _ herr hfuel
    match fuel, hfuel with
    | f + 1, _ =>
      simp only [Nat.mul_zero, Nat.add_zero] at herr
      have hcond : ((page (mk s)).status == 200) = false := by
        simpa using herr
      simp [wfsLoop, hcond, show List.range 1 = [0] from rfl]
  | succ n ih =>
    intro G s fuel acc reqs hfull herr hfuel
    match fuel, hfuel with
    | f + 1, hfuel =>
      have h0 := hfull 0 (Nat.succ_pos n)
      simp only [Nat.mul_zero, Nat.add_zero] at h0
      have hnotshort : ¬ ((G 0).features.length < 1000) := by
        rw [h0.2]
        omega
      have hrec := ih (fun i => G (i + 1)) (s + 1000) f (acc ++ [G 0])
        (reqs ++ [mk s]) ?_ ?_ ?_
      · have hGs : (acc ++ [G 0]) ++
            (List.range n).map (fun i => G (i + 1))
            = acc ++ (List.range (n + 1)).map G := by
          rw [List.append_assoc]
          congr 1
          conv_rhs => rw [List.range_succ_eq_map]
          simp [List.map_map, Function.comp_def]
        have hRs : (reqs ++ [mk s]) ++
            (List.range (n + 1)).map (fun i => mk (s + 1000 + 1000 * i))
            = reqs ++ (List.range (n + 1 + 1)).map
                (fun i => mk (s + 1000 * i)) := by
          rw [List.append_assoc]
          congr 1
          conv_rhs => rw [List.range_succ_eq_map]
          simp only [List.map_cons, Nat.mul_zero, Nat.add_zero,
            List.map_map, List.singleton_append]
          congr 1
          apply List.map_congr_left
          intro i _
          simp only [Function.comp_apply, Nat.succ_eq_add_one]
          congr 1
          ring
        simp [wfsLoop, h0.1, hnotshort, hrec, hGs, hRs]
      · intro i hi
        have hthis := hfull (i + 1) (by omega)
        have harith : s + 1000 * (i + 1) = s + 1000 + 1000 * i := by ring
        rw [harith] at hthis
        exact hthis
      · have harith : s + 1000 * (n + 1) = s + 1000 + 1000 * n := by ring
        rw [harith] at herr
        exact herr
      · omega

lemma fetch_single_eq (env : Env) (nm url ty : String)
    (dl : String → List String) (bbox : Rect) :
    fetch_geodata env [nm] dl [⟨nm, url, ty⟩] bbox =
      (dl nm).foldl
        (fun s l =>
          processLayer env ⟨nm, url, ty⟩ (epsgUrn (negotiated_to_epsg env url))
            l s)
        { cur := negotiatedBbox env url bbox, results := [], reqs := [],
          files := [],
          tbCalls := if negotiated_to_epsg env url ≠ 4326 then [bbox] else [],
          chosen := [(nm, negotiated_to_epsg env url)], mergedLog := [] } := by
  unfold fetch_geodata processDataset initSt negotiatedBbox
  simp only [List.foldl]
  rw [if_pos (List.mem_singleton.mpr rfl)]
  by_cases h : negotiated_to_epsg env url ≠ 4326
  · rw [if_pos h, if_pos h]
    simp [h]
  · rw [if_neg h, if_neg h]
    push_neg at h
    simp [h]

lemma gdfConcat_features (l : List Gdf) :
    (gdfConcat l).features = l.flatMap Gdf.features := by
  cases l <;> simp [gdfConcat]

lemma flatMap_range_len (G : Nat → Gdf) :
    ∀ N, (∀ i, i < N → (G i).features.length = 1000) →
      (((List.range (N + 1)).map G).flatMap Gdf.features).length
        = 1000 * N + (G N).features.length := by
  intro N
  induction N with
  | zero =>
    intro _
    simp [show List.range 1 = [0] from rfl]
  | succ n ih =>
    intro h
    have h1 := ih (fun i hi => h i (by omega))
    have h2 := h n (by omega)
    rw [List.range_succ, List.map_append, List.flatMap_append,
      List.length_append, h1]
    simp [h2]
    omega

/-- C3: for a WFS layer whose server returns `N` full pages of 1000
features and then a page with fewer than 1000 features, `fetch_geodata`
issues exactly the `N + 1` `GetFeature` requests with `STARTINDEX`
`0, 1000, …, 1000 * N` (each with `COUNT` 1000, recorded in the request
record), stops paginating at the first short page, and the merged feature
collection (before geometry cleaning) has exactly `1000 * N + k` features,
where `k < 1000` is the short page's size. -/
theorem fetch_wfs_pagination (env : Env) (nm url layer : String)
    (bbox : Rect) (N : Nat) (G : Nat → Gdf)
    (hfull : ∀ i, i < N →
      env.page (mkWfsReq url layer (epsgUrn (negotiated_to_epsg env url))
        (negotiatedBbox env url bbox) (1000 * i)) = ⟨200, G i⟩ ∧
      (G i).features.length = 1000)
    (hlast : env.page (mkWfsReq url layer
      (epsgUrn (negotiated_to_epsg env url)) (negotiatedBbox env url bbox)
      (1000 * N)) = ⟨200, G N⟩)
    (hk : (G N).features.length < 1000)
    (hfuel : N + 1 ≤ env.fuel) :
    (fetch_geodata env [nm] (fun x => if x == nm then [layer] else [])
        [⟨nm, url, "WFS"⟩] bbox).reqs
      = (List.range (N + 1)).map (fun i =>
          mkWfsReq url layer (epsgUrn (negotiated_to_epsg env url))
            (negotiatedBbox env url bbox) (1000 * i)) ∧
    (fetch_geodata env [nm] (fun x => if x == nm then [layer] else [])
        [⟨nm, url, "WFS"⟩] bbox).reqs.length = N + 1 ∧
    (fetch_geodata env [nm] (fun x => if x == nm then [layer] else [])
        [⟨nm, url, "WFS"⟩] bbox).mergedLog
      = [(layer, ((List.range (N + 1)).map G).flatMap Gdf.features)] ∧
    (((List.range (N + 1)).map G).flatMap Gdf.features).length
      = 1000 * N + (G N).features.length := by
  have hloop := wfsLoop_ok_pages env.page
    (mkWfsReq url layer (epsgUrn (negotiated_to_epsg env url))
      (negotiatedBbox env url bbox)) N G 0 env.fuel [] [] ?_ ?_ hk hfuel
  · have hne : (((List.range (N + 1)).map G).isEmpty) = false := by
      simp [List.isEmpty_iff]
    rw [fetch_single_eq]
    simp only [Nat.zero_add, List.nil_append] at hloop
    simp [processLayer, hloop, hne, gdfConcat_features, List.foldl,
      flatMap_range_len G N (fun i hi => (hfull i hi).2)]
  · intro i hi
    rw [Nat.zero_add]
    exact hfull i hi
  · rw [Nat.zero_add]
    exact hlast

/-- A geometry-valid feature with identifier `i`. -/
def featW (i : Nat) : Feature := ⟨i, true, true⟩

/-- Mock server pages: page 0 is full (1000 features), page 1 is short
(2 features). -/
def gdfW : Nat → Gdf := fun n =>
  if n == 0 then ⟨"EPSG:4326", (List.range 1000).map featW⟩
  else ⟨"EPSG:4326", [featW 0, featW 1]⟩

/-- Mock environment for the pagination witness: the capabilities request
fails (so the working CRS is 4326 and the bbox is untransformed), and the
WFS endpoint serves one full page at start index 0, a short page at 1000,
and errors elsewhere. -/
def envW : Env :=
  { parse := fun _ => none
    capResp := fun _ => HttpResp.exc
    page := fun r =>
      if r.startIndex == 0 then ⟨200, gdfW 0⟩
      else if r.startIndex == 1000 then ⟨200, gdfW 1⟩
      else ⟨404, ⟨"", []⟩⟩
    proj := fun p => p
    reproj := id
    fmt := fun _ => ""
    fuel := 5 }

/-- The witness bounding box. -/
def rectW : Rect := ⟨4, 51, 5, 52⟩

set_option maxRecDepth 8192 in
/-- Witness for `fetch_wfs_pagination`: with `N = 1` full page and a short
page of `k = 2`, exactly 2 requests are issued. -/
theorem fetch_wfs_pagination_witness :
    (gdfW 1).features.length < 1000 ∧
    (fetch_geodata envW ["D"] (fun x => if x == "D" then ["ly"] else [])
        [⟨"D", "http://w", "WFS"⟩] rectW).reqs.length = 1 + 1 :=
  ⟨by decide,
   (fetch_wfs_pagination envW "D" "http://w" "ly" rectW 1 gdfW
      (by
        intro i hi
        have hi0 : i = 0 := by omega
        subst hi0
        exact ⟨rfl, rfl⟩)
      rfl (by decide) (by decide)).2.1⟩

lemma cleanFeatures_all (reproj : Feature → Feature) (fs : List Feature)
    (h : ∀ f ∈ fs, f.notnull = true ∧ f.valid = true) :
    cleanFeatures reproj "EPSG:4326" fs = fs := by
  unfold cleanFeatures
  rw [if_neg (by simp)]
  show (fs.filter (fun f => f.notnull)).filter (fun f => f.valid) = fs
  have h1 : fs.filter (fun f => f.notnull) = fs :=
    List.filter_eq_self.mpr (fun a ha => (h a ha).1)
  rw [h1]
  exact List.filter_eq_self.mpr (fun a ha => (h a ha).2)

lemma gdfConcat_crs_range (G : Nat → Gdf) (m : Nat) :
    (gdfConcat ((List.range (m + 1)).map G)).crs = (G 0).crs := by
  rw [List.range_succ_eq_map]
  rfl

/-- C4: for a WFS layer whose server returns `n ≥ 1` full pages and then a
non-200 status, pagination stops (exactly `n + 1` requests are issued), no
exception escapes (the model is total), and the `1000 * n` features already
retrieved are merged, persisted to the derived filename, and registered in
the returned result set.  (The server pages are in EPSG:4326 with valid
non-null geometries, so cleaning keeps every row.) -/
theorem fetch_wfs_error_preserves_pages (env : Env) (nm url layer : String)
    (bbox : Rect) (n : Nat) (G : Nat → Gdf) (hn : 1 ≤ n)
    (hfull : ∀ i, i < n →
      env.page (mkWfsReq url layer (epsgUrn (negotiated_to_epsg env url))
        (negotiatedBbox env url bbox) (1000 * i)) = ⟨200, G i⟩ ∧
      (G i).features.length = 1000)
    (herr : (env.page (mkWfsReq url layer
      (epsgUrn (negotiated_to_epsg env url)) (negotiatedBbox env url bbox)
      (1000 * n))).status ≠ 200)
    (hcrs : (G 0).crs = "EPSG:4326")
    (hok : ∀ i, i < n → ∀ f ∈ (G i).features,
      f.notnull = true ∧ f.valid = true)
    (hfuel : n + 1 ≤ env.fuel) :
    (fetch_geodata env [nm] (fun x => if x == nm then [layer] else [])
        [⟨nm, url, "WFS"⟩] bbox).reqs.length = n + 1 ∧
    (fetch_geodata env [nm] (fun x => if x == nm then [layer] else [])
        [⟨nm, url, "WFS"⟩] bbox).files
      = [((pyReplaceChar layer ':' '_') ++ "_4326.geojson",
          ((List.range n).map G).flatMap Gdf.features)] ∧
    (fetch_geodata env [nm] (fun x => if x == nm then [layer] else [])
        [⟨nm, url, "WFS"⟩] bbox).results
      = [(layer, LayerResult.wfs (((List.range n).map G).flatMap Gdf.features)
          ((pyReplaceChar layer ':' '_') ++ "_4326.geojson"))] ∧
    (((List.range n).map G).flatMap Gdf.features).length = 1000 * n := by
  obtain ⟨m, rfl⟩ : ∃ m, n = m + 1 := ⟨n - 1, by omega⟩
  have hloop := wfsLoop_ok_then_err env.page
    (mkWfsReq url layer (epsgUrn (negotiated_to_epsg env url))
      (negotiatedBbox env url bbox)) (m + 1) G 0 env.fuel [] [] ?_ ?_ hfuel
  · have hne : (((List.range (m + 1)).map G).isEmpty) = false := by
      simp [List.isEmpty_iff]
    have hcrs2 : (gdfConcat ((List.range (m + 1)).map G)).crs
        = "EPSG:4326" := by
      rw [gdfConcat_crs_range]
      exact hcrs
    have hcleanall : cleanFeatures env.reproj "EPSG:4326"
        (((List.range (m + 1)).map G).flatMap Gdf.features)
        = ((List.range (m + 1)).map G).flatMap Gdf.features := by
      apply cleanFeatures_all
      intro f hf
      simp only [List.mem_flatMap, List.mem_map, List.mem_range] at hf
      obtain ⟨g, ⟨i, hi, rfl⟩, hfg⟩ := hf
      exact hok i hi f hfg
    have hlen : (((List.range (m + 1)).map G).flatMap Gdf.features).length
        = 1000 * (m + 1) := by
      rw [flatMap_range_len G m (fun i hi => (hfull i (by omega)).2),
        (hfull m (by omega)).2]
      ring
    rw [fetch_single_eq]
    simp only [Nat.zero_add, List.nil_append] at hloop
    simp [processLayer, hloop, hne, gdfConcat_features, hcrs2, hcleanall,
      hlen, List.foldl, dictInsert]
  · intro i hi
    rw [Nat.zero_add]
    exact hfull i hi
  · rw [Nat.zero_add]
    exact herr

/-- A full page of 1000 valid EPSG:4326 features. -/
def gdfFull : Gdf := ⟨"EPSG:4326", (List.range 1000).map featW⟩

/-- Mock environment for the error-preservation witness: full pages at
start indexes 0 and 1000, a 500 status at 2000. -/
def envW4 : Env :=
  { parse := fun _ => none
    capResp := fun _ => HttpResp.exc
    page := fun r =>
      if r.startIndex == 2000 then ⟨500, ⟨"", []⟩⟩ else ⟨200, gdfFull⟩
    proj := fun p => p
    reproj := id
    fmt := fun _ => ""
    fuel := 5 }

set_option maxRecDepth 8192 in
/-- Witness for `fetch_wfs_error_preserves_pages`: 2 full pages then an
error yield exactly 3 requests (and, by the theorem, 2000 persisted
features). -/
theorem fetch_wfs_error_preserves_pages_witness :
    1 ≤ 2 ∧
    (fetch_geodata envW4 ["D"] (fun x => if x == "D" then ["ns:ly"] else [])
        [⟨"D", "http://w", "WFS"⟩] rectW).reqs.length = 2 + 1 :=
  ⟨by decide,
   (fetch_wfs_error_preserves_pages envW4 "D" "http://w" "ns:ly" rectW 2
      (fun _ => gdfFull) (by decide)
      (by
        intro i hi
        have h2 : i = 0 ∨ i = 1 := by omega
        rcases h2 with rfl | rfl
        · exact ⟨rfl, rfl⟩
        · exact ⟨rfl, rfl⟩)
      (by decide) rfl
      (by
        intro i _ f hf
        obtain ⟨j, _, rfl⟩ := List.mem_map.mp hf
        exact ⟨rfl, rfl⟩)
      (by decide)).1⟩

/-- C9: if the very first `GetFeature` page returns a non-200 status, no
entry is registered for the layer and no file is written; whereas a first
page that succeeds with zero features still persists an (empty) feature
collection to the derived filename and registers a WFS-variant result
under the layer name. -/
theorem fetch_wfs_first_page_error_vs_empty (env1 env2 : Env)
    (nm url layer : String) (bbox : Rect)
    (herr : (env1.page (mkWfsReq url layer
      (epsgUrn (negotiated_to_epsg env1 url))
      (negotiatedBbox env1 url bbox) 0)).status ≠ 200)
    (hfuel1 : 1 ≤ env1.fuel)
    (hempty : env2.page (mkWfsReq url layer
      (epsgUrn (negotiated_to_epsg env2 url))
      (negotiatedBbox env2 url bbox) 0) = ⟨200, ⟨"EPSG:4326", []⟩⟩)
    (hfuel2 : 1 ≤ env2.fuel) :
    (fetch_geodata env1 [nm] (fun x => if x == nm then [layer] else [])
        [⟨nm, url, "WFS"⟩] bbox).results = [] ∧
    (fetch_geodata env1 [nm] (fun x => if x == nm then [layer] else [])
        [⟨nm, url, "WFS"⟩] bbox).files = [] ∧
    (fetch_geodata env2 [nm] (fun x => if x == nm then [layer] else [])
        [⟨nm, url, "WFS"⟩] bbox).files
      = [((pyReplaceChar layer ':' '_') ++ "_4326.geojson", [])] ∧
    (fetch_geodata env2 [nm] (fun x => if x == nm then [layer] else [])
        [⟨nm, url, "WFS"⟩] bbox).results
      = [(layer, LayerResult.wfs []
          ((pyReplaceChar layer ':' '_') ++ "_4326.geojson"))] := by
  have hloop1 := wfsLoop_ok_then_err env1.page
    (mkWfsReq url layer (epsgUrn (negotiated_to_epsg env1 url))
      (negotiatedBbox env1 url bbox)) 0 (fun _ => ⟨"", []⟩) 0 env1.fuel [] []
    (fun i hi => absurd hi (by omega)) (by simpa using herr) hfuel1
  have hloop2 := wfsLoop_ok_pages env2.page
    (mkWfsReq url layer (epsgUrn (negotiated_to_epsg env2 url))
      (negotiatedBbox env2 url bbox)) 0 (fun _ => ⟨"EPSG:4326", []⟩) 0
    env2.fuel [] [] (fun i hi => absurd hi (by omega))
    (by simpa using hempty) (by simp) hfuel2
  have hconc : gdfConcat ((List.range 1).map
      (fun _ => (⟨"EPSG:4326", []⟩ : Gdf))) = ⟨"EPSG:4326", []⟩ := rfl
  have hcl : cleanFeatures env2.reproj "EPSG:4326" [] = [] := rfl
  have hne : (((List.range 1).map
      (fun _ => (⟨"EPSG:4326", []⟩ : Gdf))).isEmpty) = false := rfl
  refine ⟨?_, ?_, ?_, ?_⟩
  · rw [fetch_single_eq]
    simp [processLayer, hloop1, List.foldl]
  · rw [fetch_single_eq]
    simp [processLayer, hloop1, List.foldl]
  · rw [fetch_single_eq]
    simp [processLayer, hloop2, hne, hconc, hcl, gdfConcat, List.foldl,
      dictInsert]
  · rw [fetch_single_eq]
    simp [processLayer, hloop2, hne, hconc, hcl, gdfConcat, List.foldl,
      dictInsert]

/-- Environment whose WFS endpoint always answers 404. -/
def envE1 : Env :=
  { parse := fun _ => none, capResp := fun _ => HttpResp.exc
    page := fun _ => ⟨404, ⟨"", []⟩⟩, proj := fun p => p, reproj := id
    fmt := fun _ => "", fuel := 5 }

/-- Environment whose WFS endpoint always answers 200 with zero features. -/
def envE2 : Env :=
  { parse := fun _ => none, capResp := fun _ => HttpResp.exc
    page := fun _ => ⟨200, ⟨"EPSG:4326", []⟩⟩, proj := fun p => p
    reproj := id, fmt := fun _ => "", fuel := 5 }

/-- Witness for `fetch_wfs_first_page_error_vs_empty`: a 404 first page
registers nothing, an empty 200 first page registers an empty collection. -/
theorem fetch_wfs_first_page_error_vs_empty_witness :
    (fetch_geodata envE1 ["D"] (fun x => if x == "D" then ["ly"] else [])
        [⟨"D", "http://w", "WFS"⟩] rectW).results = [] ∧
    (fetch_geodata envE2 ["D"] (fun x => if x == "D" then ["ly"] else [])
        [⟨"D", "http://w", "WFS"⟩] rectW).results
      = [("ly", LayerResult.wfs []
          ((pyReplaceChar "ly" ':' '_') ++ "_4326.geojson"))] :=
  ⟨(fetch_wfs_first_page_error_vs_empty envE1 envE2 "D" "http://w" "ly"
      rectW (by decide) (by decide) rfl (by decide)).1,
   (fetch_wfs_first_page_error_vs_empty envE1 envE2 "D" "http://w" "ly"
      rectW (by decide) (by decide) rfl (by decide)).2.2.2⟩

lemma processLayer_preserves (env : Env) (ds : Dataset) (pref layer : String)
    (st : St) :
    (processLayer env ds pref layer st).chosen = st.chosen ∧
    (processLayer env ds pref layer st).tbCalls = st.tbCalls ∧
    (processLayer env ds pref layer st).cur = st.cur := by
  unfold processLayer
  split
  · dsimp only
    split
    · exact ⟨rfl, rfl, rfl⟩
    · exact ⟨rfl, rfl, rfl⟩
  · split
    · exact ⟨rfl, rfl, rfl⟩
    · exact ⟨rfl, rfl, rfl⟩

lemma foldLayers_preserves (env : Env) (ds : Dataset) (pref : String) :
    ∀ (ls : List String) (st : St),
      ((ls.foldl (fun s l => processLayer env ds pref l s) st).chosen
        = st.chosen) ∧
      ((ls.foldl (fun s l => processLayer env ds pref l s) st).tbCalls
        = st.tbCalls) ∧
      ((ls.foldl (fun s l => processLayer env ds pref l s) st).cur
        = st.cur) := by
  intro ls
  induction ls with
  | nil => intro st; exact ⟨rfl, rfl, rfl⟩
  | cons l ls ih =>
    intro st
    have h1 := processLayer_preserves env ds pref l st
    have h2 := ih (processLayer env ds pref l st)
    simp only [List.foldl]
    exact ⟨h2.1.trans h1.1, h2.2.1.trans h1.2.1, h2.2.2.trans h1.2.2⟩

lemma negotiated_cases (env : Env) (url : String) :
    negotiated_to_epsg env url = 28992 ∨ negotiated_to_epsg env url = 4326 := by
  unfold negotiated_to_epsg
  split
  · exact Or.inl rfl
  · exact Or.inr rfl

lemma processDataset_effects (env : Env) (sel : List String)
    (dl : String → List String) (bbox : Rect) (ds : Dataset) (st : St) :
    (processDataset env sel dl bbox ds st).chosen
      = st.chosen ++ (if ds.name ∈ sel then
          [(ds.name, negotiated_to_epsg env ds.url)] else []) ∧
    (processDataset env sel dl bbox ds st).tbCalls
      = st.tbCalls ++ (if ds.name ∈ sel ∧
          negotiated_to_epsg env ds.url = 28992 then [bbox] else []) := by
  unfold processDataset
  by_cases hsel : ds.name ∈ sel
  · rcases negotiated_cases env ds.url with h28 | h43
    · have hneq : negotiated_to_epsg env ds.url ≠ 4326 := by
        rw [h28]
        decide
      simp [hsel, hneq, h28, foldLayers_preserves env ds (epsgUrn 28992)]
    · have hneq : ¬ (negotiated_to_epsg env ds.url ≠ 4326) := by
        rw [h43]
        simp
      simp [hsel, hneq, h43, foldLayers_preserves env ds (epsgUrn 4326)]
  · simp [hsel]

lemma fetch_fold_effects (env : Env) (sel : List String)
    (dl : String → List String) (bbox : Rect) :
    ∀ (dss : List Dataset) (st : St),
      ((dss.foldl (fun s d => processDataset env sel dl bbox d s) st).chosen
        = st.chosen ++ (dss.filter (fun d => decide (d.name ∈ sel))).map
            (fun d => (d.name, negotiated_to_epsg env d.url))) ∧
      ((dss.foldl (fun s d => processDataset env sel dl bbox d s) st).tbCalls
        = st.tbCalls ++ ((dss.filter (fun d => decide (d.name ∈ sel))).filter
            (fun d => decide (negotiated_to_epsg env d.url = 28992))).map
            (fun _ => bbox)) := by
  intro dss
  induction dss with
  | nil => intro st; simp
  | cons d ds ih =>
    intro st
    simp only [List.foldl]
    have h1 := processDataset_effects env sel dl bbox d st
    have h2 := ih (processDataset env sel dl bbox d st)
    constructor
    · rw [h2.1, h1.1, List.append_assoc]
      congr 1
      by_cases hsel : d.name ∈ sel
      · simp [hsel, List.filter_cons]
      · simp [hsel, List.filter_cons]
    · rw [h2.2, h1.2, List.append_assoc]
      congr 1
      by_cases hsel : d.name ∈ sel
      · by_cases h28 : negotiated_to_epsg env d.url = 28992
        · simp [hsel, h28, List.filter_cons]
        · simp [hsel, h28, List.filter_cons]
      · simp [hsel, List.filter_cons]

/-- C5: per selected dataset, `fetch_geodata` selects EPSG:28992 as working
CRS exactly when the CRS Negotiator's set contains the EPSG:28992 URN (else
EPSG:4326), and it calls the bounding-box transform exactly once per
selected dataset whose set contains the URN — never for the others; every
transform call passes the caller's bbox. -/
theorem fetch_crs_selection_policy (env : Env) (sel : List String)
    (dl : String → List String) (dss : List Dataset) (bbox : Rect) :
    (fetch_geodata env sel dl dss bbox).chosen
      = (dss.filter (fun d => decide (d.name ∈ sel))).map
          (fun d => (d.name,
            if urn28992 ∈ get_supported_crs env.parse (env.capResp d.url)
            then 28992 else 4326)) ∧
    (fetch_geodata env sel dl dss bbox).tbCalls
      = ((dss.filter (fun d => decide (d.name ∈ sel))).filter
          (fun d => decide (urn28992 ∈
            get_supported_crs env.parse (env.capResp d.url)))).map
          (fun _ => bbox) := by
  have h := fetch_fold_effects env sel dl bbox dss (initSt bbox)
  have hfe : ∀ (l : List Dataset),
      l.filter (fun d => decide (negotiated_to_epsg env d.url = 28992))
        = l.filter (fun d => decide (urn28992 ∈
            get_supported_crs env.parse (env.capResp d.url))) := by
    intro l
    apply List.filter_congr
    intro d _
    by_cases hm : urn28992 ∈ get_supported_crs env.parse (env.capResp d.url)
    · simp [negotiated_to_epsg, hm]
    · simp [negotiated_to_epsg, hm]
  constructor
  · have h1 := h.1
    rw [show (initSt bbox).chosen = [] from rfl, List.nil_append] at h1
    unfold fetch_geodata
    rw [h1]
    rfl
  · have h2 := h.2
    rw [show (initSt bbox).tbCalls = [] from rfl, List.nil_append] at h2
    unfold fetch_geodata
    rw [h2, hfe]

/-- C8: the caller's bbox is never mutated — the embedding is
call-by-value, the Python `bbox` name is never rebound (only the unpacked
working variables `minx..maxy` are), and every `transform_bbox` call made
during a `fetch_geodata` run receives the caller's ORIGINAL bbox as its
argument (line 162 transforms `bbox` itself, not the current working
variables). -/
theorem fetch_transform_always_from_original (env : Env) (sel : List String)
    (dl : String → List String) (dss : List Dataset) (bbox r : Rect)
    (hr : r ∈ (fetch_geodata env sel dl dss bbox).tbCalls) : r = bbox := by
  have h := (fetch_fold_effects env sel dl bbox dss (initSt bbox)).2
  rw [show (initSt bbox).tbCalls = [] from rfl, List.nil_append] at h
  unfold fetch_geodata at hr
  rw [h] at hr
  obtain ⟨d, _, rfl⟩ := List.mem_map.mp hr
  rfl

/-- A WFS capabilities document advertising EPSG:28992. -/
def xmlRdCaps : Xml :=
  Xml.node "WFS_Capabilities" none
    [Xml.node "DefaultCRS" (some "urn:ogc:def:crs:EPSG::28992") []]

/-- Environment whose every capabilities request advertises EPSG:28992, so
every selected dataset triggers a bbox transform (an axis swap). -/
def envT : Env :=
  { parse := fun s => if s == "<rd>" then some xmlRdCaps else none
    capResp := fun _ => HttpResp.resp 200 "<rd>"
    page := fun _ => ⟨404, ⟨"", []⟩⟩
    proj := fun p => (p.2, p.1)
    reproj := id
    fmt := fun _ => ""
    fuel := 3 }

/-- Witness for `fetch_transform_always_from_original`: the single
transform call recorded for a 28992-capable dataset received the caller's
bbox. -/
theorem fetch_transform_always_from_original_witness :
    rectW ∈ (fetch_geodata envT ["D"] (fun _ => [])
      [⟨"D", "u", "WFS"⟩] rectW).tbCalls ∧ rectW = rectW :=
  ⟨by decide,
   fetch_transform_always_from_original envT ["D"] (fun _ => [])
     [⟨"D", "u", "WFS"⟩] rectW rectW (by decide)⟩

/-- Environment for the cross-dataset leak run: dataset url `http://a`
advertises EPSG:28992 (so its bbox is transformed — modelled as the
4326→28992 axis swap), while `http://b`'s capabilities request fails (so
dataset B's working CRS is 4326 and no transform is issued for it). -/
def envLeak : Env :=
  { parse := fun s => if s == "<rd>" then some xmlRdCaps else none
    capResp := fun u =>
      if u == "http://a" then HttpResp.resp 200 "<rd>" else HttpResp.exc
    page := fun _ => ⟨404, ⟨"", []⟩⟩
    proj := fun p => (p.2, p.1)
    reproj := id
    fmt := fun q => toString q.num
    fuel := 3 }

/-- Layer lookup for the leak run. -/
def dlLeak : String → List String :=
  fun n => if n == "A" then ["la"] else if n == "B" then ["lb"] else []

/-- C1 (evaluation at the failing input): with dataset A (working CRS
28992, transformed) processed before dataset B (working CRS 4326, no
transform), B's `GetFeature` request carries A's TRANSFORMED extent
`(51, 4, 52, 5)` — paired with the `EPSG::4326` URN — instead of the
caller's original `(4, 51, 5, 52)`: the reassigned working variables of
line 162 leak across dataset iterations, contradicting the claim that a
later 4326 dataset uses the original untransformed bbox. -/
theorem fetch_bbox_leak_across_datasets :
    (fetch_geodata envLeak ["A", "B"] dlLeak
        [⟨"A", "http://a", "WFS"⟩, ⟨"B", "http://b", "WFS"⟩]
        ⟨4, 51, 5, 52⟩).reqs.map
      (fun r => (r.typenames, r.srsname, r.bminx, r.bminy, r.bmaxx, r.bmaxy))
      = [("la", "urn:ogc:def:crs:EPSG::28992", 51, 4, 52, 5),
         ("lb", "urn:ogc:def:crs:EPSG::4326", 51, 4, 52, 5)] ∧
    ((51 : ℚ), (4 : ℚ), (52 : ℚ), (5 : ℚ))
      ≠ ((4 : ℚ), (51 : ℚ), (5 : ℚ), (52 : ℚ)) := by
  decide

/-- Environment for the WMS run: the WMS dataset's capabilities advertise
EPSG:28992, so `fetch_geodata` transforms the working bbox (axis swap)
before the layer loop — also for the WMS branch. -/
def envWms : Env :=
  { parse := fun s => if s == "<rd>" then some xmlRdCaps else none
    capResp := fun _ => HttpResp.resp 200 "<rd>"
    page := fun _ => ⟨404, ⟨"", []⟩⟩
    proj := fun p => (p.2, p.1)
    reproj := id
    fmt := fun q => toString q.num
    fuel := 3 }

/-- C2 (evaluation at the failing input): for a WMS dataset whose
supported-CRS set contains the EPSG:28992 URN, the registered `GetMap` URL
is built from the TRANSFORMED working extent `51,4,52,5` while still
labelling it `srs=EPSG:4326` — not from the original caller bbox
`4,51,5,52` the claim requires.  (No `GetFeature` request is issued for the
WMS branch.) -/
theorem fetch_wms_url_uses_transformed_bbox :
    (fetch_geodata envWms ["W"] (fun x => if x == "W" then ["water"] else [])
        [⟨"W", "http://example/wms", "WMS"⟩] ⟨4, 51, 5, 52⟩).results
      = [("water", LayerResult.wms
          ("http://example/wms?service=WMS&request=GetMap&layers=water" ++
           "&bbox=51,4,52,5&width=500&height=500&srs=EPSG:4326" ++
           "&format=image/png"))] ∧
    (fetch_geodata envWms ["W"] (fun x => if x == "W" then ["water"] else [])
        [⟨"W", "http://example/wms", "WMS"⟩] ⟨4, 51, 5, 52⟩).reqs = [] ∧
    ("http://example/wms?service=WMS&request=GetMap&layers=water" ++
     "&bbox=51,4,52,5&width=500&height=500&srs=EPSG:4326" ++
     "&format=image/png")
      ≠ ("http://example/wms?service=WMS&request=GetMap&layers=water" ++
         "&bbox=4,51,5,52&width=500&height=500&srs=EPSG:4326" ++
         "&format=image/png") := by
  decide
